import Mathlib

/-!
Verification of the I/O layer of QuakeMigrate (`QMigrate/io/core.py`).

The functions below are a shallow embedding of the Python source. The
external collaborators (the pandas CSV parser and the obspy inventory
reader) are represented by their outputs: the table readers consume the
header-indexed frame produced by `pd.read_csv(file, delimiter)`, and
`read_response_inv` takes the obspy `read_inventory` function as an
argument. Everything the source itself computes is embedded directly.
-/

set_option autoImplicit false

namespace QMIO

/-- Cell value of a parsed delimited table: `pd.read_csv` types each cell as
a number or a string. Numbers are modelled as rationals, on which the one
arithmetic operation the source applies (negation) is exact, as it also is
on floating-point values. -/
inductive Value where
  | num : Rat → Value
  | str : String → Value
deriving DecidableEq

/-- Predicate for string-typed cells, used to express the `astype` coercion
of the Name column. -/
def Value.isStr : Value → Bool
  | .num _ => false
  | .str _ => true

/-- Errors raised by the io layer: the two header exceptions from
`QMigrate.util`, Python `NotImplementedError` and `TypeError` from
`read_response_inv`, and the pandas `KeyError` raised when a missing column
label is indexed or handed to `astype`. -/
inductive PyError where
  | stationFileHeader : PyError
  | velocityModelFileHeader : PyError
  | notImplementedError : String → PyError
  | typeError : String → PyError
  | keyError : String → PyError
deriving DecidableEq

/-- A parsed delimited table as returned by `pd.read_csv(file, delimiter)`:
the labelled columns in file order. Labels produced by `read_csv` are
unique (duplicates are mangled by pandas). -/
abbrev DataFrame := List (String × List Value)

/-- Column labels of a frame (`df.columns`). -/
def columns (df : DataFrame) : List String := df.map Prod.fst

/-- pandas column selection `df[c]`: the first column labelled `c`, or a
`KeyError` when the label is absent. -/
def getCol : DataFrame → String → Except PyError (List Value)
  | [], c => .error (.keyError c)
  | p :: rest, c => if p.1 = c then .ok p.2 else getCol rest c

/-- pandas column assignment `df[c] = vs`: replaces the column when the
label is present, appends a new column otherwise. -/
def setCol (df : DataFrame) (c : String) (vs : List Value) : DataFrame :=
  if c ∈ columns df then df.map (fun p => if p.1 = c then (c, vs) else p)
  else df ++ [(c, vs)]

/-- Python `or` on two string operands: yields the first operand when it is
truthy (non-empty), the second otherwise — short-circuit evaluation, not a
disjunction of membership tests. -/
def pyOr (a b : String) : String := if a = "" then b else a

/-- Python `-1*x` as `read_stations` applies it to each Elevation cell:
exact negation on a number; on a string cell Python `-1*s` is the empty
string (sequence repetition with a negative count). -/
def negValue : Value → Value
  | .num q => .num (-q)
  | .str _ => .str ""

/-- Rendering used by `toStrValue` for numeric cells. Only the
string-typedness of the result matters to the io layer, not the numeral
format, which belongs to the external Python `str`. -/
def ratStr (q : Rat) : String := toString q.num ++ "/" ++ toString q.den

/-- pandas `astype` to `"str"` on one cell: a number is rendered as a
string, a string is unchanged. -/
def toStrValue : Value → Value
  | .num q => .str (ratStr q)
  | .str s => .str s

/-- Embedding of `read_stations(station_file, delimiter)` applied to the
frame `pd.read_csv(station_file, delimiter)`. The header check embeds the
source condition
`("Latitude" or "Longitude" or "Elevation" or "Name") not in
stn_data.columns` by way of `pyOr`; then the Elevation column is negated
cell-wise and the Name column is coerced to string type (each of these
raises `KeyError` when its column is missing). -/
def read_stations (stn_data : DataFrame) : Except PyError DataFrame :=
  if !(columns stn_data).contains
      (pyOr "Latitude" (pyOr "Longitude" (pyOr "Elevation" "Name"))) then
    .error .stationFileHeader
  else
    match getCol stn_data "Elevation" with
    | .error e => .error e
    | .ok elev =>
      let df2 := setCol stn_data "Elevation" (elev.map negValue)
      match getCol df2 "Name" with
      | .error e => .error e
      | .ok names => .ok (setCol df2 "Name" (names.map toStrValue))

/-- Embedding of the deprecated alias `stations(station_file, delimiter)`:
prints a three-line deprecation notice (returned here as the list of
printed lines) and forwards both arguments to `read_stations`. -/
def stations (stn_data : DataFrame) : List String × Except PyError DataFrame :=
  (["FutureWarning: function name has changed - continuing.",
    "To remove this message, change:",
    "\t\x27stations\x27 -> \x27read_stations\x27"],
   read_stations stn_data)

/-- Embedding of `read_vmodel(vmodel_file, delimiter)` applied to the frame
`pd.read_csv(vmodel_file, delimiter)`. The header check embeds the source
condition `("Depth" or "Vp" or "Vs") not in vmodel_data.columns`; the frame
is returned with no value transformation. -/
def read_vmodel (vmodel_data : DataFrame) : Except PyError DataFrame :=
  if !(columns vmodel_data).contains (pyOr "Depth" (pyOr "Vp" "Vs")) then
    .error .velocityModelFileHeader
  else .ok vmodel_data

/-- Embedding of `read_response_inv(response_file, sac_pz_format)`. The
obspy reader `read_inventory` is external and passed as an argument; it
yields an inventory (an opaque value of type `α`, which the source never
inspects) or the diagnostic message of a `TypeError`. The second component
of the result records the argument of every call made to the external
reader, so that the number of read attempts is part of the semantics. -/
def read_response_inv {α : Type} (read_inventory : String → Except String α)
    (response_file : String) (sac_pz_format : Bool) :
    Except PyError α × List String :=
  if sac_pz_format then
    (.error (.notImplementedError
      "SAC_PZ is not yet supported. Please contact the QuakeMigrate developers."),
     [])
  else
    match read_inventory response_file with
    | .ok response_inv => (.ok response_inv, [response_file])
    | .error e =>
      (.error (.typeError ("Response file not readable by ObsPy: " ++ e ++
        "\nPlease consult the ObsPy documentation.")), [response_file])

/-- Test for Python `"." in s`. -/
def hasDot (s : String) : Bool := s.data.any (fun c => c == '.')

/-- Python `s.replace(".", "_")`: for a one-character pattern and a
one-character replacement this is the character-wise map. -/
def sanitize (s : String) : String :=
  ⟨s.data.map (fun c => if c = '.' then '_' else c)⟩

/-- One `pathlib` join step `p / s` on plain name segments: pathlib drops
an empty segment, so `Path("a") / ""` is `Path("a")`. -/
def pathJoin (p : List String) (s : String) : List String :=
  if s = "" then p else p ++ [s]

/-- The `Run` object of `QMigrate/io/core.py`. The field `path` holds
`pathlib.Path(path) / name` as set by the constructor; paths are modelled
as their lists of segments. -/
structure Run where
  path : List String
  _name : String
  stage : Option String
  subname : String
deriving DecidableEq

/-- Embedding of `Run.__init__(path, name, subname, stage)`: when either
`name` or `subname` contains a dot, a warning is printed and the dots in
both are replaced by underscores; the Boolean result records whether the
warning was printed. The class has no other method that writes to `_name`
or `subname`, so the constructed fields are final. -/
def Run.init (path : List String) (name subname : String)
    (stage : Option String) : Run × Bool :=
  if hasDot name || hasDot subname then
    ({ path := pathJoin path (sanitize name), _name := sanitize name,
       stage := stage, subname := sanitize subname }, true)
  else
    ({ path := pathJoin path name, _name := name,
       stage := stage, subname := subname }, false)

/-- The `Run.name` property: the raw name when `subname` is empty,
otherwise the raw name and the subname joined by an underscore. -/
def Run.name (r : Run) : String :=
  if r.subname = "" then r._name else r._name ++ "_" ++ r.subname

/-- The log-file stem built by `Run.logger`:
`self.path / self.stage / self.subname / "logs" / self.name`. When `stage`
is `None` the Python path join would fail with a `TypeError`, hence
`none`. -/
def Run.logstem (r : Run) : Option (List String) :=
  match r.stage with
  | none => none
  | some stage =>
    some (pathJoin (pathJoin (pathJoin (pathJoin r.path stage) r.subname)
      "logs") (Run.name r))

/-! Auxiliary lemmas about the frame operations and the sanitization. -/

theorem contains_of_mem {l : List String} {c : String} (h : c ∈ l) :
    l.contains c = true := List.elem_iff.2 h

theorem getCol_ok_of_mem (df : DataFrame) (c : String) (h : c ∈ columns df) :
    ∃ vs, getCol df c = .ok vs := by
  induction df with
  | nil => simp [columns] at h
  | cons p rest ih =>
    by_cases hp : p.1 = c
    · exact ⟨p.2, by simp [getCol, hp]⟩
    · have hr : c ∈ columns rest := by
        rcases List.mem_cons.1 h with h1 | h1
        · exact absurd h1.symm hp
        · exact h1
      rcases ih hr with ⟨vs, hvs⟩
      exact ⟨vs, by simp [getCol, hp, hvs]⟩

theorem getCol_map_set (df : DataFrame) (c : String) (vs : List Value)
    (h : c ∈ columns df) :
    getCol (df.map (fun p => if p.1 = c then (c, vs) else p)) c = .ok vs := by
  induction df with
  | nil => simp [columns] at h
  | cons p rest ih =>
    by_cases hp : p.1 = c
    · simp [getCol, hp]
    · have hr : c ∈ columns rest := by
        rcases List.mem_cons.1 h with h1 | h1
        · exact absurd h1.symm hp
        · exact h1
      simp [getCol, hp]
      exact ih hr

theorem getCol_map_other (df : DataFrame) (c c2 : String) (vs : List Value)
    (h : c2 ≠ c) :
    getCol (df.map (fun p => if p.1 = c then (c, vs) else p)) c2
      = getCol df c2 := by
  induction df with
  | nil => rfl
  | cons p rest ih =>
    by_cases hp : p.1 = c
    · simp [getCol, hp, Ne.symm h, ih]
    · by_cases hq : p.1 = c2 <;> simp [getCol, hp, hq, h, ih]

theorem getCol_append_other (df : DataFrame) (c c2 : String) (vs : List Value)
    (h : c2 ≠ c) : getCol (df ++ [(c, vs)]) c2 = getCol df c2 := by
  induction df with
  | nil => simp [getCol, Ne.symm h]
  | cons p rest ih =>
    by_cases hp : p.1 = c2 <;> simp [getCol, hp, ih]

theorem getCol_setCol_self (df : DataFrame) (c : String) (vs : List Value)
    (h : c ∈ columns df) : getCol (setCol df c vs) c = .ok vs := by
  rw [setCol, if_pos h]
  exact getCol_map_set df c vs h

theorem getCol_setCol_other (df : DataFrame) (c c2 : String) (vs : List Value)
    (h : c2 ≠ c) : getCol (setCol df c vs) c2 = getCol df c2 := by
  rw [setCol]
  by_cases hmem : c ∈ columns df
  · rw [if_pos hmem]; exact getCol_map_other df c c2 vs h
  · rw [if_neg hmem]; exact getCol_append_other df c c2 vs h

theorem columns_map_set (df : DataFrame) (c : String) (vs : List Value) :
    columns (df.map (fun p => if p.1 = c then (c, vs) else p)) = columns df := by
  induction df with
  | nil => rfl
  | cons p rest ih =>
    by_cases hp : p.1 = c <;> simp [columns, hp] <;>
      simpa [columns] using ih

theorem columns_setCol (df : DataFrame) (c : String) (vs : List Value)
    (h : c ∈ columns df) : columns (setCol df c vs) = columns df := by
  rw [setCol, if_pos h]
  exact columns_map_set df c vs

theorem isStr_toStrValue (v : Value) : (toStrValue v).isStr = true := by
  cases v <;> rfl

theorem any_dot_map_false (l : List Char) :
    (l.map (fun c => if c = '.' then '_' else c)).any (fun c => c == '.')
      = false := by
  induction l with
  | nil => rfl
  | cons c l ih =>
    simp only [List.map_cons, List.any_cons, ih, Bool.or_false]
    by_cases hc : c = '.' <;> simp [hc]

theorem hasDot_sanitize (s : String) : hasDot (sanitize s) = false :=
  any_dot_map_false s.data

theorem map_nodot_id (l : List Char) (h : ∀ c ∈ l, c ≠ '.') :
    l.map (fun c => if c = '.' then '_' else c) = l := by
  induction l with
  | nil => rfl
  | cons c l ih =>
    simp only [List.map_cons]
    rw [if_neg (h c (List.mem_cons_self c l)),
      ih (fun x hx => h x (List.mem_cons_of_mem c hx))]

theorem sanitize_eq_self_iff (s : String) :
    sanitize s = s ↔ hasDot s = false := by
  constructor
  · intro h
    rw [← h]
    exact hasDot_sanitize s
  · intro h
    apply String.ext
    show s.data.map _ = s.data
    apply map_nodot_id
    intro c hc hceq
    have h2 : s.data.any (fun c => c == '.') = false := h
    have h3 := List.any_eq_false.1 h2 c hc
    simp [hceq] at h3

theorem run_init_snd (path : List String) (name subname : String)
    (stage : Option String) :
    (Run.init path name subname stage).2 = (hasDot name || hasDot subname) := by
  cases hb : (hasDot name || hasDot subname) <;> simp [Run.init, hb]

theorem run_init_no_dot (path : List String) (name subname : String)
    (stage : Option String) (hn : hasDot name = false)
    (hs : hasDot subname = false) :
    Run.init path name subname stage
      = ({ path := pathJoin path name, _name := name,
           stage := stage, subname := subname }, false) := by
  rw [Run.init, hn, hs]
  rfl

theorem str_append_ne_empty (a b : String) (h : a ≠ "") : a ++ b ≠ "" := by
  intro hab
  apply h
  have hd : (a ++ b).data = [] := by rw [hab]
  rw [String.data_append] at hd
  rcases List.append_eq_nil.1 hd with ⟨ha, _⟩
  exact String.ext ha

/-! Claim theorems. -/

/-- C1: the header check of `read_stations` does not reject a station frame
missing a required column. The Python condition
`("Latitude" or "Longitude" or "Elevation" or "Name") not in columns` only
tests for "Latitude", so a frame with header Latitude, Elevation, Name —
Longitude missing — is not rejected with `StationFileHeaderError`: the
parsed table is returned (Elevation negated, Name coerced), contradicting
the function docstring and the claim. -/
theorem read_stations_missing_longitude_no_error :
    read_stations [("Latitude", [Value.num 1]), ("Elevation", [Value.num 2]),
        ("Name", [Value.str "A"])]
      = .ok [("Latitude", [Value.num 1]), ("Elevation", [Value.num (-2)]),
        ("Name", [Value.str "A"])] := by rfl

/-- C2: the header check of `read_vmodel` does not reject a velocity-model
frame missing a required column. The condition
`("Depth" or "Vp" or "Vs") not in columns` only tests for "Depth", so a
frame with header Depth, Vs — Vp missing — is returned unchanged instead of
raising `VelocityModelFileHeaderError`, contradicting the function
docstring and the claim. -/
theorem read_vmodel_missing_vp_no_error :
    read_vmodel [("Depth", [Value.num 0]), ("Vs", [Value.num 3])]
      = .ok [("Depth", [Value.num 0]), ("Vs", [Value.num 3])] := by rfl

/-- C3: on every frame containing all four required columns, in any column
order, whose Elevation cells are the numbers `qs`, `read_stations`
succeeds, the Elevation column of the returned frame is the element-wise
negation of `qs`, and every cell of the returned Name column is
string-typed. -/
theorem read_stations_valid_header (df : DataFrame) (qs : List Rat)
    (hLat : "Latitude" ∈ columns df) (hLon : "Longitude" ∈ columns df)
    (hElev : "Elevation" ∈ columns df) (hName : "Name" ∈ columns df)
    (helev : getCol df "Elevation" = .ok (qs.map Value.num)) :
    ∃ df2 names, read_stations df = .ok df2 ∧
      getCol df2 "Elevation" = .ok (qs.map (fun q => Value.num (-q))) ∧
      getCol df2 "Name" = .ok names ∧ ∀ v ∈ names, v.isStr = true := by
  have hcont : (columns df).contains
      (pyOr "Latitude" (pyOr "Longitude" (pyOr "Elevation" "Name"))) = true :=
    contains_of_mem hLat
  obtain ⟨ns, hns⟩ := getCol_ok_of_mem df "Name" hName
  have hname2 : getCol (setCol df "Elevation" ((qs.map Value.num).map negValue))
      "Name" = .ok ns := by
    rw [getCol_setCol_other df "Elevation" "Name" _ (by decide)]
    exact hns
  refine ⟨setCol (setCol df "Elevation" ((qs.map Value.num).map negValue))
      "Name" (ns.map toStrValue), ns.map toStrValue, ?_, ?_, ?_, ?_⟩
  · rw [read_stations, hcont]
    simp only [Bool.not_true, Bool.false_eq_true, if_false, helev, hname2]
  · rw [getCol_setCol_other _ "Name" "Elevation" _ (by decide),
      getCol_setCol_self df "Elevation" _ hElev, List.map_map]
    rfl
  · apply getCol_setCol_self
    rw [columns_setCol df "Elevation" _ hElev]
    exact hName
  · intro v hv
    rcases List.mem_map.1 hv with ⟨w, _, rfl⟩
    exact isStr_toStrValue w

/-- Witness for C3 at the spec's end-to-end frame. -/
theorem read_stations_valid_header_witness :
    ∃ df2 names,
      read_stations [("Latitude", [Value.num 10]), ("Longitude", [Value.num 20]),
          ("Elevation", [Value.num 100]), ("Name", [Value.str "ST1"])] = .ok df2 ∧
      getCol df2 "Elevation" = .ok ([(100 : Rat)].map (fun q => Value.num (-q))) ∧
      getCol df2 "Name" = .ok names ∧ ∀ v ∈ names, v.isStr = true :=
  read_stations_valid_header
    [("Latitude", [Value.num 10]), ("Longitude", [Value.num 20]),
      ("Elevation", [Value.num 100]), ("Name", [Value.str "ST1"])]
    [(100 : Rat)] (by decide) (by decide) (by decide) (by decide) (by rfl)

/-- C4: with `sac_pz_format` set, `read_response_inv` fails immediately with
the `NotImplementedError` (the spec's `UnsupportedFormatError`), for every
path and every external reader alike, and the trace of calls to the
external reader is empty: no read is attempted. -/
theorem read_response_inv_sac_pz (α : Type)
    (read_inventory : String → Except String α) (response_file : String) :
    read_response_inv read_inventory response_file true
      = (.error (.notImplementedError
          "SAC_PZ is not yet supported. Please contact the QuakeMigrate developers."),
         []) := rfl

/-- C5: with `sac_pz_format` unset: when the external reader fails with
diagnostic `e`, the result is a `TypeError` whose message is the original
diagnostic wrapped in guidance text, and the reader was called exactly once
on the given file; when the external reader succeeds, its inventory is
returned unchanged, again after exactly one call. -/
theorem read_response_inv_delegates (α : Type)
    (read_inventory : String → Except String α) (response_file : String) :
    (∀ e, read_inventory response_file = .error e →
      read_response_inv read_inventory response_file false
        = (.error (.typeError ("Response file not readable by ObsPy: " ++ e ++
            "\nPlease consult the ObsPy documentation.")), [response_file])) ∧
    (∀ inv, read_inventory response_file = .ok inv →
      read_response_inv read_inventory response_file false
        = (.ok inv, [response_file])) := by
  constructor
  · intro e he
    simp [read_response_inv, he]
  · intro inv hi
    simp [read_response_inv, hi]

/-- Witness for C5: a failing and a succeeding external reader. -/
theorem read_response_inv_delegates_witness :
    (read_response_inv (fun _ => (Except.error "unknown format" : Except String Nat))
        "resp.xml" false
      = (.error (.typeError ("Response file not readable by ObsPy: "
          ++ "unknown format" ++ "\nPlease consult the ObsPy documentation.")),
         ["resp.xml"])) ∧
    (read_response_inv (fun _ => (Except.ok 0 : Except String Nat)) "resp.xml" false
      = (.ok 0, ["resp.xml"])) :=
  ⟨(read_response_inv_delegates Nat
      (fun _ => (Except.error "unknown format" : Except String Nat))
      "resp.xml").1 "unknown format" rfl,
   (read_response_inv_delegates Nat
      (fun _ => (Except.ok 0 : Except String Nat)) "resp.xml").2 0 rfl⟩

/-- C6: for every constructor input the stored name and subname contain no
dot, and the warning is printed exactly when the sanitization changes the
name or the subname; constructing with name "run.1" stores "run_1" and
warns, while "run1" is stored unchanged without a warning. The embedded
`Run` is immutable — no operation returns a modified `Run` — so the stored
fields are final. -/
theorem run_init_sanitizes (path : List String) (name subname : String)
    (stage : Option String) :
    hasDot (Run.init path name subname stage).1._name = false ∧
    hasDot (Run.init path name subname stage).1.subname = false ∧
    ((Run.init path name subname stage).2 = true ↔
      sanitize name ≠ name ∨ sanitize subname ≠ subname) ∧
    Run.init path "run.1" "" stage
      = ({ path := pathJoin path "run_1", _name := "run_1",
           stage := stage, subname := "" }, true) ∧
    Run.init path "run1" "" stage
      = ({ path := pathJoin path "run1", _name := "run1",
           stage := stage, subname := "" }, false) := by
  refine ⟨?_, ?_, ?_, rfl, rfl⟩
  · cases hb : (hasDot name || hasDot subname) <;> simp [Run.init, hb]
    · exact (Bool.or_eq_false_iff.1 hb).1
    · exact hasDot_sanitize name
  · cases hb : (hasDot name || hasDot subname) <;> simp [Run.init, hb]
    · exact (Bool.or_eq_false_iff.1 hb).2
    · exact hasDot_sanitize subname
  · rw [run_init_snd]
    simp [sanitize_eq_self_iff, Bool.or_eq_true]

/-- C7: the `name` property of a `Run` equals the stored name when the
subname is empty, and the stored name followed by an underscore and the
subname otherwise — in particular for every non-empty dot-free subname. -/
theorem run_name_property (r : Run) :
    (r.subname = "" → Run.name r = r._name) ∧
    (r.subname ≠ "" → hasDot r.subname = false →
      Run.name r = r._name ++ "_" ++ r.subname) := by
  constructor
  · intro h
    simp [Run.name, h]
  · intro h _
    simp [Run.name, h]

/-- Witness for C7 at an empty and a non-empty subname. -/
theorem run_name_property_witness :
    Run.name { path := [], _name := "run1", stage := none, subname := "" }
        = "run1" ∧
    Run.name { path := [], _name := "run1", stage := none, subname := "sub" }
        = "run1" ++ "_" ++ "sub" :=
  ⟨(run_name_property ⟨[], "run1", none, ""⟩).1 rfl,
   (run_name_property ⟨[], "run1", none, "sub"⟩).2 (by decide) (by rfl)⟩

/-- C8 fails as stated: for the run built from path p, name n, subname s and
stage t, the log stem's last segment is the effective name n_s produced by
the `name` property, not the run name n that the claimed template
p/n/t/s/logs/n requires. -/
theorem run_logstem_counterexample :
    (Run.init ["p"] "n" "s" (some "t")).1.logstem
        = some ["p", "n", "t", "s", "logs", "n_s"] ∧
    (Run.init ["p"] "n" "s" (some "t")).1.logstem
        ≠ some ["p", "n", "t", "s", "logs", "n"] := by
  constructor
  · rfl
  · decide

/-- C8 amended: the run root is the base path followed by the name, and the
log stem is path/name/stage/subname/logs/ followed by the effective name —
the raw name when the subname is empty (whose empty segment pathlib drops),
and name_subname otherwise. -/
theorem run_logstem_layout (path : List String) (name subname stage : String)
    (hn : hasDot name = false) (hs : hasDot subname = false)
    (hne : name ≠ "") (hst : stage ≠ "") :
    (Run.init path name subname (some stage)).1.path = path ++ [name] ∧
    (subname = "" →
      (Run.init path name subname (some stage)).1.logstem
        = some (path ++ [name, stage, "logs", name])) ∧
    (subname ≠ "" →
      (Run.init path name subname (some stage)).1.logstem
        = some (path ++ [name, stage, subname, "logs",
            name ++ "_" ++ subname])) := by
  rw [run_init_no_dot path name subname (some stage) hn hs]
  refine ⟨?_, ?_, ?_⟩
  · simp [pathJoin, hne]
  · intro h1
    simp [Run.logstem, Run.name, pathJoin, hne, hst, h1]
  · intro h1
    have heff : name ++ "_" ++ subname ≠ "" :=
      str_append_ne_empty (name ++ "_") subname
        (str_append_ne_empty name "_" hne)
    simp [Run.logstem, Run.name, pathJoin, hne, hst, h1, heff]

/-- Witness for the amended C8 at a non-empty and an empty subname. -/
theorem run_logstem_layout_witness :
    (Run.init ["p"] "n" "s" (some "t")).1.logstem
        = some (["p"] ++ ["n", "t", "s", "logs", "n" ++ "_" ++ "s"]) ∧
    (Run.init ["p"] "n2" "" (some "t")).1.logstem
        = some (["p"] ++ ["n2", "t", "logs", "n2"]) :=
  ⟨(run_logstem_layout ["p"] "n" "s" "t" rfl rfl (by decide) (by decide)).2.2
      (by decide),
   (run_logstem_layout ["p"] "n2" "" "t" rfl rfl (by decide) (by decide)).2.1
      rfl⟩

/-- C9: every velocity-model frame containing the three required columns is
returned by `read_vmodel` unchanged — the whole frame is passed through, so
no negation and no type coercion touches the Depth, Vp or Vs values. -/
theorem read_vmodel_id (df : DataFrame)
    (hd : "Depth" ∈ columns df) (hp : "Vp" ∈ columns df)
    (hs : "Vs" ∈ columns df) : read_vmodel df = .ok df := by
  have hcont : (columns df).contains (pyOr "Depth" (pyOr "Vp" "Vs")) = true :=
    contains_of_mem hd
  rw [read_vmodel, hcont]
  simp

/-- Witness for C9 at a one-layer velocity model. -/
theorem read_vmodel_id_witness :
    read_vmodel [("Depth", [Value.num 0]), ("Vp", [Value.num 5]),
        ("Vs", [Value.num 3])]
      = .ok [("Depth", [Value.num 0]), ("Vp", [Value.num 5]),
        ("Vs", [Value.num 3])] :=
  read_vmodel_id
    [("Depth", [Value.num 0]), ("Vp", [Value.num 5]), ("Vs", [Value.num 3])]
    (by decide) (by decide) (by decide)

/-- C10: the deprecated alias returns exactly the result of `read_stations`
on the same parsed input — so it succeeds, and fails, exactly when
`read_stations` does — and its only additional effect is printing the
three-line deprecation notice. -/
theorem stations_alias_equiv (df : DataFrame) :
    (stations df).2 = read_stations df ∧
    (stations df).1
      = ["FutureWarning: function name has changed - continuing.",
         "To remove this message, change:",
         "\t\x27stations\x27 -> \x27read_stations\x27"] :=
  ⟨rfl, rfl⟩

end QMIO
